import Mathlib

/-!
Shallow embedding of the estimation engine of the BatteryLog repository
(`src/battery_monitor/estimations.py`), together with proofs checking the
natural-language specification against it.

Conventions of the embedding:
* a pandas row becomes a `Sample`; timestamps are rational instants measured
  in minutes, so a pandas `Timedelta.total_seconds() / 60` becomes a plain
  subtraction of rationals;
* python floats become rationals (`ℚ`); all arithmetic in the source is
  `+ - * / min pow`, which is exact on the inputs considered;
* `data['x'].iloc[i]` becomes a total `getD` access with a default sample —
  every access performed by the source is in bounds whenever the branch that
  performs it is reachable;
* the interval-detail dictionaries become records; the iso-formatted time
  strings keep their underlying instants; the `debug` string fields carry no
  semantic content and are omitted.
-/

structure Sample where
  timestamp : ℚ
  percentage : ℚ
  power_plugged : Bool
deriving DecidableEq

def dfltSample : Sample := ⟨0, 0, false⟩

def tsAt (data : List Sample) (i : ℕ) : ℚ := (data.getD i dfltSample).timestamp

def pctAt (data : List Sample) (i : ℕ) : ℚ := (data.getD i dfltSample).percentage

def plugAt (data : List Sample) (i : ℕ) : Bool := (data.getD i dfltSample).power_plugged

/-- `time_gap` of the scan loops (estimations.py lines 74 and 235): minutes
between sample `i-1` and sample `i`. -/
def timeGap (data : List Sample) (i : ℕ) : ℚ := tsAt data i - tsAt data (i - 1)

/-- Condition of line 76 / 237: both samples of the adjacent pair `(i-1, i)`
are on battery and the gap does not exceed `max_gap_minutes = 5`. -/
def pairOk (data : List Sample) (i : ℕ) : Bool :=
  (plugAt data i == false) && (plugAt data (i - 1) == false) && decide (timeGap data i ≤ 5)

/-- One iteration of the two-state scan, lines 76-84 / 237-245.  The state is
`(start_idx, intervals)`; a closing step discards zero-length intervals. -/
def segStep (data : List Sample) (st : Option ℕ × List (ℕ × ℕ)) (i : ℕ) :
    Option ℕ × List (ℕ × ℕ) :=
  if pairOk data i then (some (st.1.getD (i - 1)), st.2)
  else
    match st.1 with
    | some s0 => (none, if s0 < i - 1 then st.2 ++ [(s0, i - 1)] else st.2)
    | none => (none, st.2)

/-- The segmenter, lines 65-88 / 225-249: the scan over `i in range(1, len(data))`
followed by the close-at-end-of-data step of lines 87-88 / 248-249. -/
def findIntervals (data : List Sample) : List (ℕ × ℕ) :=
  let n := data.length
  let r := (List.range' 1 (n - 1)).foldl (segStep data) (none, [])
  match r.1 with
  | some s0 => if s0 < n - 1 then r.2 ++ [(s0, n - 1)] else r.2
  | none => r.2

/-- Line 99: `intervals[-10:] if len(intervals) > 10 else intervals`. -/
def recentIntervals (data : List Sample) : List (ℕ × ℕ) :=
  let ivs := findIntervals data
  ivs.drop (ivs.length - 10)

def ivStartPct (data : List Sample) (iv : ℕ × ℕ) : ℚ := pctAt data iv.1

def ivEndPct (data : List Sample) (iv : ℕ × ℕ) : ℚ := pctAt data iv.2

/-- `time_diff` of lines 107 and 280, in minutes. -/
def ivDur (data : List Sample) (iv : ℕ × ℕ) : ℚ := tsAt data iv.2 - tsAt data iv.1

/-- `drain_rate` of lines 111 and 284: percent per minute. -/
def ivRate (data : List Sample) (iv : ℕ × ℕ) : ℚ :=
  (ivStartPct data iv - ivEndPct data iv) / ivDur data iv

/-- Admission filter of line 110:
`time_diff >= 2 and start_percent > end_percent and (start_percent - end_percent) >= 0.5`. -/
def wQualifies (data : List Sample) (iv : ℕ × ℕ) : Bool :=
  decide (2 ≤ ivDur data iv) && decide (ivEndPct data iv < ivStartPct data iv) &&
    decide (0.5 ≤ ivStartPct data iv - ivEndPct data iv)

/-- The enumerated retained intervals that pass the filter of line 110.  The
loop of lines 102-125 appends `drain_rate`, `combined_weight` and `time_diff`
exactly for these, in this order, with `i` the `enumerate` index over the
truncated list `recent_intervals`. -/
def wQualifying (data : List Sample) : List (ℕ × (ℕ × ℕ)) :=
  (recentIntervals data).enum.filter (fun p => wQualifies data p.2)

/-- `drain_rates` list as built by lines 102-125. -/
def drainRates (data : List Sample) : List ℚ :=
  (wQualifying data).map (fun p => ivRate data p.2)

/-- `weights` list, line 120: `min(time_diff, 120) * 2**i`. -/
def weights (data : List Sample) : List ℚ :=
  (wQualifying data).map (fun p => min (ivDur data p.2) 120 * 2 ^ p.1)

/-- `durations` list, line 124. -/
def durations (data : List Sample) : List ℚ :=
  (wQualifying data).map (fun p => ivDur data p.2)

/-- Line 131: `sum(rate * weight for ...) / sum(weights)`. -/
def weightedAverage (data : List Sample) : ℚ :=
  (((drainRates data).zip (weights data)).map (fun rw => rw.1 * rw.2)).sum / (weights data).sum

structure IntervalDetail where
  start_time : ℚ
  end_time : ℚ
  duration_minutes : ℚ
  data_points : ℕ
  start_percentage : ℚ
  end_percentage : ℚ
  drain_rate : ℚ
  weight : ℚ
deriving DecidableEq

/-- The `interval_details` loop of lines 133-146: it walks `recent_intervals`
again and keeps entry `i` whenever `i < len(drain_rates)`, pairing the times
and percentages of `recent_intervals[i]` with `durations[i]`, `drain_rates[i]`
and `weights[i]`. -/
def intervalDetails (data : List Sample) : List IntervalDetail :=
  (recentIntervals data).enum.filterMap (fun p =>
    if p.1 < (drainRates data).length then
      some ⟨tsAt data p.2.1, tsAt data p.2.2, (durations data).getD p.1 0,
        p.2.2 - p.2.1 + 1, pctAt data p.2.1, pctAt data p.2.2,
        (drainRates data).getD p.1 0, (weights data).getD p.1 0⟩
    else none)

/-- `normalized_variance` of lines 156-160. -/
def normalizedVariance (data : List Sample) : ℚ :=
  let dr := drainRates data
  let wa := weightedAverage data
  if 1 < dr.length then
    (if 0 < wa then min (((dr.map (fun r => (r - wa) ^ 2)).sum / (dr.length : ℚ)) / wa) 1
     else 1)
  else 0.5

/-- The confidence blend of lines 162-168. -/
def confidence (data : List Sample) : ℚ :=
  let ic := min (((drainRates data).length : ℚ) / 5) 1
  let dc := min ((durations data).sum / 60) 1
  let cc := 1 - normalizedVariance data
  ic * 0.4 + dc * 0.3 + cc * 0.3

structure WResult where
  average_drain_rate : ℚ
  confidence : ℚ
  num_intervals : ℕ
  interval_details : List IntervalDetail
deriving DecidableEq

/-- `get_weighted_average_drain_rate`, lines 50-170: `None` when the scan finds
no interval (line 90) or when no retained interval passes the filter (line 127),
otherwise the weighted average with confidence and diagnostics. -/
def get_weighted_average_drain_rate (data : List Sample) : Option WResult :=
  if findIntervals data = [] then none
  else if drainRates data = [] then none
  else some ⟨weightedAverage data, confidence data, (drainRates data).length,
    intervalDetails data⟩

structure TimeLeftResult where
  time_left_minutes : Option ℚ
  confidence : ℚ
  intervals_used : ℕ
  average_drain_rate : Option ℚ
  interval_details : List IntervalDetail
deriving DecidableEq

/-- `estimate_time_left_data_based`, lines 4-48. -/
def estimate_time_left_data_based (data : List Sample) : TimeLeftResult :=
  match get_weighted_average_drain_rate data with
  | none => ⟨none, 0, 0, none, []⟩
  | some r =>
    if 0 < r.average_drain_rate then
      ⟨some (pctAt data (data.length - 1) / r.average_drain_rate), r.confidence,
        r.num_intervals, some r.average_drain_rate, r.interval_details⟩
    else ⟨none, 0, r.num_intervals, none, r.interval_details⟩

structure FullBatteryResult where
  full_battery_time_minutes : Option ℚ
  confidence : ℚ
  intervals_used : ℕ
  average_drain_rate : Option ℚ
  interval_details : List IntervalDetail
deriving DecidableEq

/-- `estimate_time_on_full_battery`, lines 172-210. -/
def estimate_time_on_full_battery (data : List Sample) : FullBatteryResult :=
  match get_weighted_average_drain_rate data with
  | none => ⟨none, 0, 0, none, []⟩
  | some r =>
    if 0 < r.average_drain_rate then
      ⟨some (100 / r.average_drain_rate), r.confidence, r.num_intervals,
        some r.average_drain_rate, r.interval_details⟩
    else ⟨none, 0, r.num_intervals, none, r.interval_details⟩

/-- `battery_indices` of lines 254-257: all indices of on-battery samples. -/
def batteryIndices (data : List Sample) : List ℕ :=
  (List.range data.length).filter (fun i => plugAt data i == false)

/-- The synthetic interval of lines 259-263: built from the last up to 10
on-battery sample indices, only when at least 2 such indices exist.
`battery_indices[-min(len, 10)]` is the element at position `len - min(len, 10)`. -/
def fallbackInterval (data : List Sample) : Option (ℕ × ℕ) :=
  let b := batteryIndices data
  if 2 ≤ b.length then
    some (b.getD (b.length - min b.length 10) 0, b.getD (b.length - 1) 0)
  else none

/-- The looser admission test of line 283:
`time_diff >= 1 and start_percent > end_percent and (start_percent - end_percent) >= 0.1`. -/
def lastQualifies (data : List Sample) (iv : ℕ × ℕ) : Bool :=
  decide (1 ≤ ivDur data iv) && decide (ivEndPct data iv < ivStartPct data iv) &&
    decide (0.1 ≤ ivStartPct data iv - ivEndPct data iv)

structure LastIntervalDetail where
  start_time : ℚ
  end_time : ℚ
  duration_minutes : ℚ
  data_points : ℕ
  start_percentage : ℚ
  end_percentage : ℚ
  drain_rate : ℚ
  weight : ℚ
  is_latest : Bool
deriving DecidableEq

structure LastResult where
  time_left_minutes : Option ℚ
  confidence : ℚ
  drain_rate : Option ℚ
  interval_details : List LastIntervalDetail
deriving DecidableEq

/-- The interval list consulted by `estimate_time_left_last_interval`: the
scan result, or — only when the scan yields nothing (line 252) — the synthetic
interval of lines 259-263. -/
def lastIntervalList (data : List Sample) : List (ℕ × ℕ) :=
  if findIntervals data = [] then (fallbackInterval data).toList else findIntervals data

/-- `estimate_time_left_last_interval`, lines 213-316.  The scan is the one of
`findIntervals`; when it yields nothing, lines 252-263 substitute the synthetic
interval; `intervals[-1]` is then tested against the looser thresholds. -/
def estimate_time_left_last_interval (data : List Sample) : LastResult :=
  match (lastIntervalList data).getLast? with
  | none => ⟨none, 0, none, []⟩
  | some iv =>
    if lastQualifies data iv then
      let dr := ivRate data iv
      let tl := if 0 < dr then some (pctAt data (data.length - 1) / dr) else none
      let conf := (min (ivDur data iv / 15) 1 +
        min ((ivStartPct data iv - ivEndPct data iv) / 2) 1) / 2
      ⟨tl, conf, some dr,
        [⟨tsAt data iv.1, tsAt data iv.2, ivDur data iv, iv.2 - iv.1 + 1,
          ivStartPct data iv, ivEndPct data iv, dr, 1, true⟩]⟩
    else ⟨none, 0, none, []⟩

structure FullLastResult where
  full_battery_time_minutes : Option ℚ
  confidence : ℚ
  drain_rate : Option ℚ
  interval_details : List LastIntervalDetail
deriving DecidableEq

/-- `estimate_full_battery_last_interval`, lines 318-341. -/
def estimate_full_battery_last_interval (data : List Sample) : FullLastResult :=
  let l := estimate_time_left_last_interval data
  match l.drain_rate with
  | some dr =>
    if 0 < dr then ⟨some (100 / dr), l.confidence, some dr, l.interval_details⟩
    else ⟨none, 0, none, l.interval_details⟩
  | none => ⟨none, 0, none, l.interval_details⟩

structure Report where
  current_percentage : ℚ
  time_left : TimeLeftResult
  full_battery : FullBatteryResult
  time_left_last_interval : LastResult
  full_battery_last_interval : FullLastResult
  timestamp : Option ℚ
deriving DecidableEq

/-- `get_battery_estimations`, lines 343-366. -/
def get_battery_estimations (data : List Sample) : Report :=
  ⟨if 0 < data.length then pctAt data (data.length - 1) else 0,
    estimate_time_left_data_based data,
    estimate_time_on_full_battery data,
    estimate_time_left_last_interval data,
    estimate_full_battery_last_interval data,
    if 0 < data.length then some (tsAt data (data.length - 1)) else none⟩

/-! ### The mutable data frame

Lines 62-63 (and the identical lines 221-222) write back into the caller's
frame: `data['timestamp'] = pd.to_datetime(data['timestamp'])` whenever the
timestamp column is not already datetime-typed.  A frame is modelled as its
three columns, with the timestamp column tagged by its dtype; parsing keeps
the underlying instants and only changes the tag. -/

inductive TsCol where
  | raw : List ℚ → TsCol
  | dt : List ℚ → TsCol
deriving DecidableEq

def TsCol.isDatetime : TsCol → Bool
  | .raw _ => false
  | .dt _ => true

def TsCol.vals : TsCol → List ℚ
  | .raw v => v
  | .dt v => v

/-- `pd.to_datetime` on the whole column. -/
def toDatetime (c : TsCol) : TsCol := TsCol.dt c.vals

structure Frame where
  ts : TsCol
  pct : List ℚ
  plug : List Bool
deriving DecidableEq

/-- The in-place conversion of lines 62-63 / 221-222. -/
def ensureDatetime (f : Frame) : Frame :=
  if f.ts.isDatetime then f else ⟨toDatetime f.ts, f.pct, f.plug⟩

/-- The sample series a frame denotes. -/
def Frame.samples (f : Frame) : List Sample :=
  (f.ts.vals.zip (f.pct.zip f.plug)).map (fun p => ⟨p.1, p.2.1, p.2.2⟩)

/-- `get_weighted_average_drain_rate` acting on the caller's frame: the result
plus the frame as the caller sees it after the call. -/
def get_weighted_average_drain_rate_frame (f : Frame) : Option WResult × Frame :=
  let f2 := ensureDatetime f
  (get_weighted_average_drain_rate f2.samples, f2)

/-- `estimate_time_left_last_interval` acting on the caller's frame. -/
def estimate_time_left_last_interval_frame (f : Frame) : LastResult × Frame :=
  let f2 := ensureDatetime f
  (estimate_time_left_last_interval f2.samples, f2)

/-- `get_battery_estimations` acting on the caller's frame: each of the four
estimator calls of lines 350-355 runs the in-place conversion of lines 62-63 /
221-222 on the shared frame before reading it. -/
def get_battery_estimations_frame (f : Frame) : Report × Frame :=
  let f1 := ensureDatetime f
  let f2 := ensureDatetime f1
  let f3 := ensureDatetime f2
  let f4 := ensureDatetime f3
  (get_battery_estimations f4.samples, f4)

/-! ### Spec-side definitions

Each of the following follows the words of a claim (not the source); the
theorems below compare them with the source functions. -/

/-- The weighted drain rate exactly as claim C1 words it: the admission filter
is applied to the full interval list first, the 10 most recent qualifying
intervals are retained, and the recency index counts chronological position
within that retained qualifying set. -/
def claimWeightedRate (data : List Sample) : Option ℚ :=
  let quals := (findIntervals data).filter (fun iv => wQualifies data iv)
  let recent := quals.drop (quals.length - 10)
  let es := recent.enum
  if es = [] then none
  else some (((es.map (fun p => ivRate data p.2 * (min (ivDur data p.2) 120 * 2 ^ p.1))).sum) /
    ((es.map (fun p => min (ivDur data p.2) 120 * 2 ^ p.1)).sum))

/-- The weighted drain rate as amended: truncation to the 10 most recent
intervals happens before filtering, and the recency exponent is the position
within that truncated pre-filter list. -/
def amendedWeightedRate (data : List Sample) : Option ℚ :=
  if wQualifying data = [] then none
  else some (((wQualifying data).map
      (fun p => ivRate data p.2 * (min (ivDur data p.2) 120 * 2 ^ p.1))).sum /
    ((wQualifying data).map (fun p => min (ivDur data p.2) 120 * 2 ^ p.1)).sum)

/-- The last-interval drain rate exactly as claim C2 words it: the most recent
interval of the full list that passes the looser thresholds; only when no
interval passes them is the synthetic fallback interval used. -/
def claimLastIntervalRate (data : List Sample) : Option ℚ :=
  match (findIntervals data).reverse.find? (fun iv => lastQualifies data iv) with
  | some iv => some (ivRate data iv)
  | none =>
    match fallbackInterval data with
    | some iv => if lastQualifies data iv then some (ivRate data iv) else none
    | none => none

/-- The last-interval drain rate as amended: only the chronologically last
interval is consulted, and the fallback is used only when the scan produced no
interval at all. -/
def amendedLastDrainRate (data : List Sample) : Option ℚ :=
  match (lastIntervalList data).getLast? with
  | none => none
  | some iv => if lastQualifies data iv then some (ivRate data iv) else none

/-- The confidence blend exactly as claim C6 words it, with no guard on the
sign of the weighted mean and the single-interval consistency fixed at 0.5. -/
def claimConfidence (data : List Sample) : ℚ :=
  let rs := drainRates data
  let m := weightedAverage data
  let consistency : ℚ :=
    if rs.length = 1 then 0.5
    else 1 - min (((rs.map (fun r => (r - m) ^ 2)).sum / (rs.length : ℚ)) / m) 1
  0.4 * min ((rs.length : ℚ) / 5) 1 + 0.3 * min ((durations data).sum / 60) 1 +
    0.3 * consistency

/-- The invariant claim C3 states for an interval `(s, e)` of the scan. -/
def segInvariant (data : List Sample) (s e : ℕ) : Prop :=
  s < e ∧
  (∀ j, s ≤ j → j ≤ e → plugAt data j = false) ∧
  (∀ j, s < j → j ≤ e → timeGap data j ≤ 5) ∧
  (∀ i, 5 < timeGap data i → ¬(s ≤ i - 1 ∧ i ≤ e))

/-- Internal invariant of the scan: an emitted interval is nonempty and all its
adjacent pairs satisfy the continuation condition. -/
def goodIv (data : List Sample) (iv : ℕ × ℕ) : Prop :=
  iv.1 < iv.2 ∧ ∀ j, iv.1 < j → j ≤ iv.2 → pairOk data j = true

/-- Invariant of the scan state after the pairs `1..i` have been processed. -/
def segState (data : List Sample) (i : ℕ) (st : Option ℕ × List (ℕ × ℕ)) : Prop :=
  (∀ iv ∈ st.2, goodIv data iv) ∧
  ∀ s0, st.1 = some s0 → s0 < i ∧ ∀ j, s0 < j → j ≤ i → pairOk data j = true

/-! ### Concrete sample series used as witnesses and counterexamples -/

/-- Three on-battery runs: minutes 0-8 draining 100→96, a one-minute flat run
at 96 (filtered out by the weighted admission test), and minutes 17-25
draining 96→88. -/
def exData1 : List Sample :=
  [⟨0, 100, false⟩, ⟨4, 98, false⟩, ⟨8, 96, false⟩, ⟨10, 96, true⟩,
   ⟨12, 96, false⟩, ⟨13, 96, false⟩, ⟨15, 96, true⟩, ⟨17, 96, false⟩,
   ⟨21, 92, false⟩, ⟨25, 88, false⟩]

/-- A first interval that passes the looser last-interval thresholds followed
by a final half-minute flat interval that does not. -/
def exData2 : List Sample :=
  [⟨0, 100, false⟩, ⟨4, 96, false⟩, ⟨6, 96, true⟩, ⟨8, 96, false⟩,
   ⟨17 / 2, 96, false⟩]

/-- One clean six-minute interval draining 100→96. -/
def exDataC6 : List Sample := [⟨0, 100, false⟩, ⟨4, 98, false⟩, ⟨8, 96, false⟩]

/-- A contiguous on-battery run over minutes 0-6. -/
def exDataC7a : List Sample := [⟨0, 100, false⟩, ⟨3, 99, false⟩, ⟨6, 98, false⟩]

/-- The same endpoints with the middle sample plugged in: no contiguous run,
so only the synthetic fallback interval exists. -/
def exDataC7b : List Sample := [⟨0, 100, false⟩, ⟨3, 99, true⟩, ⟨6, 98, false⟩]

/-- A single on-battery sample. -/
def exData5 : List Sample := [⟨0, 50, false⟩]

/-- A frame whose timestamp column is not yet datetime-typed. -/
def exFrameRaw : Frame := ⟨TsCol.raw [0, 4], [100, 98], [false, false]⟩

/-- A frame whose timestamp column is already datetime-typed. -/
def exFrameDt : Frame := ⟨TsCol.dt [0], [50], [false]⟩

/-! ### Evaluation lemmas on the concrete series -/

theorem eval_findIntervals_exData1 : findIntervals exData1 = [(0, 2), (4, 5), (7, 9)] := by
  norm_num [findIntervals, exData1, segStep, pairOk, plugAt, timeGap, tsAt, dfltSample,
    List.range']

theorem eval_weighted_exData1 : get_weighted_average_drain_rate exData1 =
    some ⟨9 / 10, 307 / 600, 2,
      [⟨0, 8, 8, 3, 100, 96, 1 / 2, 8⟩, ⟨12, 13, 8, 2, 96, 96, 1, 32⟩]⟩ := by
  have h1 := eval_findIntervals_exData1
  have h2 : recentIntervals exData1 = [(0, 2), (4, 5), (7, 9)] := by
    simp [recentIntervals, h1]
  have q1 : wQualifies exData1 (0, 2) = true := by
    norm_num [wQualifies, ivDur, ivStartPct, ivEndPct, tsAt, pctAt, exData1, dfltSample]
  have q2 : wQualifies exData1 (4, 5) = false := by
    norm_num [wQualifies, ivDur, ivStartPct, ivEndPct, tsAt, pctAt, exData1, dfltSample]
  have q3 : wQualifies exData1 (7, 9) = true := by
    norm_num [wQualifies, ivDur, ivStartPct, ivEndPct, tsAt, pctAt, exData1, dfltSample]
  have h3 : wQualifying exData1 = [(0, (0, 2)), (2, (7, 9))] := by
    simp only [wQualifying, h2]
    norm_num [List.enum, List.enumFrom, List.filter, q1, q2, q3]
  have h4 : drainRates exData1 = [1 / 2, 1] := by
    simp only [drainRates, h3]
    norm_num [ivRate, ivStartPct, ivEndPct, ivDur, tsAt, pctAt, exData1, dfltSample]
  have h5 : weights exData1 = [8, 32] := by
    simp only [weights, h3]
    norm_num [ivDur, tsAt, exData1, dfltSample, min_def]
  have h6 : durations exData1 = [8, 8] := by
    simp only [durations, h3]
    norm_num [ivDur, tsAt, exData1, dfltSample]
  have h7 : weightedAverage exData1 = 9 / 10 := by
    simp only [weightedAverage, h4, h5]
    norm_num [List.zip, List.zipWith]
  have h8 : intervalDetails exData1 =
      [⟨0, 8, 8, 3, 100, 96, 1 / 2, 8⟩, ⟨12, 13, 8, 2, 96, 96, 1, 32⟩] := by
    simp only [intervalDetails, h2, h4, h5, h6]
    norm_num [List.enum, List.enumFrom, List.filterMap, tsAt, pctAt, exData1, dfltSample,
      List.getD_cons_zero, List.getD_cons_succ]
  have h9 : normalizedVariance exData1 = 17 / 180 := by
    simp only [normalizedVariance, h4, h7]
    norm_num [min_def]
  have h10 : confidence exData1 = 307 / 600 := by
    simp only [confidence, h4, h6, h9]
    norm_num [min_def]
  simp only [get_weighted_average_drain_rate, h1, h4, h7, h10, h8]
  norm_num
  exact ⟨List.cons_ne_nil _ _, fun h => absurd h (List.cons_ne_nil _ _)⟩

theorem eval_claimWeightedRate_exData1 : claimWeightedRate exData1 = some (5 / 6) := by
  have h1 := eval_findIntervals_exData1
  have q1 : wQualifies exData1 (0, 2) = true := by
    norm_num [wQualifies, ivDur, ivStartPct, ivEndPct, tsAt, pctAt, exData1, dfltSample]
  have q2 : wQualifies exData1 (4, 5) = false := by
    norm_num [wQualifies, ivDur, ivStartPct, ivEndPct, tsAt, pctAt, exData1, dfltSample]
  have q3 : wQualifies exData1 (7, 9) = true := by
    norm_num [wQualifies, ivDur, ivStartPct, ivEndPct, tsAt, pctAt, exData1, dfltSample]
  have hr1 : ivRate exData1 (0, 2) = 1 / 2 := by
    norm_num [ivRate, ivStartPct, ivEndPct, ivDur, tsAt, pctAt, exData1, dfltSample]
  have hr2 : ivRate exData1 (7, 9) = 1 := by
    norm_num [ivRate, ivStartPct, ivEndPct, ivDur, tsAt, pctAt, exData1, dfltSample]
  have hd1 : ivDur exData1 (0, 2) = 8 := by
    norm_num [ivDur, tsAt, exData1, dfltSample]
  have hd2 : ivDur exData1 (7, 9) = 8 := by
    norm_num [ivDur, tsAt, exData1, dfltSample]
  simp only [claimWeightedRate, h1]
  norm_num [List.filter, q1, q2, q3, List.enum, List.enumFrom, hr1, hr2, hd1, hd2, min_def]
  exact fun h => absurd h (List.cons_ne_nil _ _)

theorem eval_findIntervals_exData2 : findIntervals exData2 = [(0, 1), (3, 4)] := by
  norm_num [findIntervals, exData2, segStep, pairOk, plugAt, timeGap, tsAt, dfltSample,
    List.range']

theorem eval_last_exData2 : estimate_time_left_last_interval exData2 = ⟨none, 0, none, []⟩ := by
  have h1 := eval_findIntervals_exData2
  have hL : lastIntervalList exData2 = [(0, 1), (3, 4)] := by
    simp [lastIntervalList, h1]
  have hG : (lastIntervalList exData2).getLast? = some (3, 4) := by rw [hL]; rfl
  have hq : lastQualifies exData2 (3, 4) = false := by
    norm_num [lastQualifies, ivDur, ivStartPct, ivEndPct, tsAt, pctAt, exData2, dfltSample]
  simp [estimate_time_left_last_interval, hG, hq]

theorem eval_claimLastIntervalRate_exData2 : claimLastIntervalRate exData2 = some 1 := by
  have h1 := eval_findIntervals_exData2
  have hq : lastQualifies exData2 (3, 4) = false := by
    norm_num [lastQualifies, ivDur, ivStartPct, ivEndPct, tsAt, pctAt, exData2, dfltSample]
  have hq2 : lastQualifies exData2 (0, 1) = true := by
    norm_num [lastQualifies, ivDur, ivStartPct, ivEndPct, tsAt, pctAt, exData2, dfltSample]
  have hr : ivRate exData2 (0, 1) = 1 := by
    norm_num [ivRate, ivStartPct, ivEndPct, ivDur, tsAt, pctAt, exData2, dfltSample]
  simp only [claimLastIntervalRate, h1]
  norm_num [List.reverse, List.reverseAux, List.find?, hq, hq2, hr]

theorem eval_last_exDataC7a : estimate_time_left_last_interval exDataC7a =
    ⟨some 294, 7 / 10, some (1 / 3), [⟨0, 6, 6, 3, 100, 98, 1 / 3, 1, true⟩]⟩ := by
  have h1 : findIntervals exDataC7a = [(0, 2)] := by
    norm_num [findIntervals, exDataC7a, segStep, pairOk, plugAt, timeGap, tsAt, dfltSample,
      List.range']
  have hL : lastIntervalList exDataC7a = [(0, 2)] := by simp [lastIntervalList, h1]
  have hG : (lastIntervalList exDataC7a).getLast? = some (0, 2) := by rw [hL]; rfl
  have hq : lastQualifies exDataC7a (0, 2) = true := by
    norm_num [lastQualifies, ivDur, ivStartPct, ivEndPct, tsAt, pctAt, exDataC7a, dfltSample]
  have hr : ivRate exDataC7a (0, 2) = 1 / 3 := by
    norm_num [ivRate, ivStartPct, ivEndPct, ivDur, tsAt, pctAt, exDataC7a, dfltSample]
  have hd : ivDur exDataC7a (0, 2) = 6 := by
    norm_num [ivDur, tsAt, exDataC7a, dfltSample]
  have hsp : ivStartPct exDataC7a (0, 2) = 100 := by
    norm_num [ivStartPct, pctAt, exDataC7a, dfltSample]
  have hep : ivEndPct exDataC7a (0, 2) = 98 := by
    norm_num [ivEndPct, pctAt, exDataC7a, dfltSample]
  have ht0 : tsAt exDataC7a 0 = 0 := by norm_num [tsAt, exDataC7a, dfltSample]
  have ht2 : tsAt exDataC7a 2 = 6 := by norm_num [tsAt, exDataC7a, dfltSample]
  have hcur : pctAt exDataC7a (exDataC7a.length - 1) = 98 := by
    norm_num [pctAt, exDataC7a, dfltSample]
  simp only [estimate_time_left_last_interval, hG, hq, hr, hd, hsp, hep, ht0, ht2, hcur]
  norm_num [min_def]

theorem eval_last_exDataC7b : estimate_time_left_last_interval exDataC7b =
    ⟨some 294, 7 / 10, some (1 / 3), [⟨0, 6, 6, 3, 100, 98, 1 / 3, 1, true⟩]⟩ := by
  have h1 : findIntervals exDataC7b = [] := by
    norm_num [findIntervals, exDataC7b, segStep, pairOk, plugAt, timeGap, tsAt, dfltSample,
      List.range']
  have hb : batteryIndices exDataC7b = [0, 2] := by
    norm_num [batteryIndices, exDataC7b, plugAt, dfltSample, List.range, List.range_succ,
      List.filter]
  have hf : fallbackInterval exDataC7b = some (0, 2) := by
    simp only [fallbackInterval, hb]
    norm_num [List.getD_cons_zero, List.getD_cons_succ]
  have hL : lastIntervalList exDataC7b = [(0, 2)] := by
    simp [lastIntervalList, h1, hf]
  have hG : (lastIntervalList exDataC7b).getLast? = some (0, 2) := by rw [hL]; rfl
  have hq : lastQualifies exDataC7b (0, 2) = true := by
    norm_num [lastQualifies, ivDur, ivStartPct, ivEndPct, tsAt, pctAt, exDataC7b, dfltSample]
  have hr : ivRate exDataC7b (0, 2) = 1 / 3 := by
    norm_num [ivRate, ivStartPct, ivEndPct, ivDur, tsAt, pctAt, exDataC7b, dfltSample]
  have hd : ivDur exDataC7b (0, 2) = 6 := by
    norm_num [ivDur, tsAt, exDataC7b, dfltSample]
  have hsp : ivStartPct exDataC7b (0, 2) = 100 := by
    norm_num [ivStartPct, pctAt, exDataC7b, dfltSample]
  have hep : ivEndPct exDataC7b (0, 2) = 98 := by
    norm_num [ivEndPct, pctAt, exDataC7b, dfltSample]
  have ht0 : tsAt exDataC7b 0 = 0 := by norm_num [tsAt, exDataC7b, dfltSample]
  have ht2 : tsAt exDataC7b 2 = 6 := by norm_num [tsAt, exDataC7b, dfltSample]
  have hcur : pctAt exDataC7b (exDataC7b.length - 1) = 98 := by
    norm_num [pctAt, exDataC7b, dfltSample]
  simp only [estimate_time_left_last_interval, hG, hq, hr, hd, hsp, hep, ht0, ht2, hcur]
  norm_num [min_def]

theorem eval_findIntervals_exDataC7a : findIntervals exDataC7a = [(0, 2)] := by
  norm_num [findIntervals, exDataC7a, segStep, pairOk, plugAt, timeGap, tsAt, dfltSample,
    List.range']

theorem eval_findIntervals_exDataC7b : findIntervals exDataC7b = [] := by
  norm_num [findIntervals, exDataC7b, segStep, pairOk, plugAt, timeGap, tsAt, dfltSample,
    List.range']

theorem eval_weighted_exDataC6 : get_weighted_average_drain_rate exDataC6 =
    some ⟨1 / 2, 27 / 100, 1, [⟨0, 8, 8, 3, 100, 96, 1 / 2, 8⟩]⟩ := by
  have h1 : findIntervals exDataC6 = [(0, 2)] := by
    norm_num [findIntervals, exDataC6, segStep, pairOk, plugAt, timeGap, tsAt, dfltSample,
      List.range']
  have h2 : recentIntervals exDataC6 = [(0, 2)] := by simp [recentIntervals, h1]
  have q1 : wQualifies exDataC6 (0, 2) = true := by
    norm_num [wQualifies, ivDur, ivStartPct, ivEndPct, tsAt, pctAt, exDataC6, dfltSample]
  have h3 : wQualifying exDataC6 = [(0, (0, 2))] := by
    simp only [wQualifying, h2]
    norm_num [List.enum, List.enumFrom, List.filter, q1]
  have h4 : drainRates exDataC6 = [1 / 2] := by
    simp only [drainRates, h3]
    norm_num [ivRate, ivStartPct, ivEndPct, ivDur, tsAt, pctAt, exDataC6, dfltSample]
  have h5 : weights exDataC6 = [8] := by
    simp only [weights, h3]
    norm_num [ivDur, tsAt, exDataC6, dfltSample, min_def]
  have h6 : durations exDataC6 = [8] := by
    simp only [durations, h3]
    norm_num [ivDur, tsAt, exDataC6, dfltSample]
  have h7 : weightedAverage exDataC6 = 1 / 2 := by
    simp only [weightedAverage, h4, h5]
    norm_num [List.zip, List.zipWith]
  have h8 : intervalDetails exDataC6 = [⟨0, 8, 8, 3, 100, 96, 1 / 2, 8⟩] := by
    simp only [intervalDetails, h2, h4, h5, h6]
    norm_num [List.enum, List.enumFrom, List.filterMap, tsAt, pctAt, exDataC6, dfltSample,
      List.getD_cons_zero, List.getD_cons_succ]
  have h9 : normalizedVariance exDataC6 = 1 / 2 := by
    norm_num [normalizedVariance, h4]
  have h10 : confidence exDataC6 = 27 / 100 := by
    simp only [confidence, h4, h6, h9]
    norm_num [min_def]
  simp only [get_weighted_average_drain_rate, h1, h4, h7, h10, h8]
  norm_num

/-- Claim C10: on an empty series the facade raises nothing and reports
`current_percentage = 0`, `timestamp = none` and the no-estimate sub-results;
the frame-level call behaves identically on an empty, still-untyped frame. -/
theorem C10_empty_facade : get_battery_estimations [] =
    ⟨0, ⟨none, 0, 0, none, []⟩, ⟨none, 0, 0, none, []⟩, ⟨none, 0, none, []⟩,
      ⟨none, 0, none, []⟩, none⟩ ∧
    (get_battery_estimations_frame ⟨TsCol.raw [], [], []⟩).1 =
    ⟨0, ⟨none, 0, 0, none, []⟩, ⟨none, 0, 0, none, []⟩, ⟨none, 0, none, []⟩,
      ⟨none, 0, none, []⟩, none⟩ := by
  constructor <;>
    norm_num [get_battery_estimations, get_battery_estimations_frame, ensureDatetime,
      toDatetime, TsCol.isDatetime, TsCol.vals, Frame.samples, estimate_time_left_data_based,
      estimate_time_on_full_battery, estimate_time_left_last_interval,
      estimate_full_battery_last_interval, get_weighted_average_drain_rate, drainRates,
      wQualifying, recentIntervals, findIntervals, lastIntervalList, fallbackInterval,
      batteryIndices, List.range']

/-! ### The segmenter invariant (claim C3) -/

theorem pairOk_iff (data : List Sample) (i : ℕ) :
    pairOk data i = true ↔
      plugAt data i = false ∧ plugAt data (i - 1) = false ∧ timeGap data i ≤ 5 := by
  simp [pairOk, Bool.and_eq_true, beq_iff_eq, decide_eq_true_iff, and_assoc]

theorem segStep_preserves (data : List Sample) (i : ℕ) (st : Option ℕ × List (ℕ × ℕ))
    (h : segState data i st) : segState data (i + 1) (segStep data st (i + 1)) := by
  obtain ⟨hacc, hstart⟩ := h
  obtain ⟨st1, st2⟩ := st
  by_cases hp : pairOk data (i + 1) = true
  · cases st1 with
    | none =>
      simp only [segStep, hp, if_true, Option.getD_none, Nat.add_sub_cancel]
      refine ⟨hacc, fun s0 hs0 => ?_⟩
      obtain rfl : i = s0 := by simpa using hs0
      refine ⟨by omega, fun j hj1 hj2 => ?_⟩
      obtain rfl : j = i + 1 := by omega
      exact hp
    | some t =>
      simp only [segStep, hp, if_true, Option.getD_some]
      obtain ⟨hti, hpairs⟩ := hstart t rfl
      refine ⟨hacc, fun s0 hs0 => ?_⟩
      obtain rfl : t = s0 := by simpa using hs0
      refine ⟨by omega, fun j hj1 hj2 => ?_⟩
      rcases Nat.lt_or_ge j (i + 1) with hj | hj
      · exact hpairs j hj1 (by omega)
      · obtain rfl : j = i + 1 := by omega
        exact hp
  · cases st1 with
    | none =>
      simp only [segStep, hp, if_false, Bool.false_eq_true]
      exact ⟨hacc, fun s0 hs0 => by simp at hs0⟩
    | some t =>
      simp only [segStep, hp, if_false, Bool.false_eq_true, Nat.add_sub_cancel]
      obtain ⟨hti, hpairs⟩ := hstart t rfl
      refine ⟨fun iv hiv => ?_, fun s0 hs0 => by simp at hs0⟩
      by_cases hlt : t < i
      · rw [if_pos hlt] at hiv
        rcases List.mem_append.mp hiv with hin | hin
        · exact hacc iv hin
        · obtain rfl : iv = (t, i) := List.mem_singleton.mp hin
          exact ⟨hlt, fun j hj1 hj2 => hpairs j hj1 hj2⟩
      · rw [if_neg hlt] at hiv
        exact hacc iv hiv

theorem segFold_inv (data : List Sample) :
    ∀ (k i : ℕ) (st : Option ℕ × List (ℕ × ℕ)), segState data i st →
      segState data (i + k) ((List.range' (i + 1) k).foldl (segStep data) st) := by
  intro k
  induction k with
  | zero => intro i st h; simpa using h
  | succ k ih =>
    intro i st h
    rw [List.range'_succ]
    simp only [List.foldl_cons]
    have h1 := segStep_preserves data i st h
    have h2 := ih (i + 1) (segStep data st (i + 1)) h1
    have e1 : i + 1 + 1 = i + 1 + 1 := rfl
    have e2 : i + 1 + k = i + (k + 1) := by omega
    rw [e2] at h2
    exact h2

theorem findIntervals_good (data : List Sample) :
    ∀ iv ∈ findIntervals data, goodIv data iv := by
  intro iv hiv
  have h0 : segState data 0 ((none : Option ℕ), ([] : List (ℕ × ℕ))) :=
    ⟨fun iv h => by simp at h, fun s0 h => by simp at h⟩
  have h := segFold_inv data (data.length - 1) 0 (none, []) h0
  rw [Nat.zero_add, Nat.zero_add] at h
  unfold findIntervals at hiv
  simp only at hiv
  obtain ⟨hgood, hopen⟩ := h
  split at hiv
  next s0 heq =>
    by_cases hlt : s0 < data.length - 1
    · rw [if_pos hlt] at hiv
      rcases List.mem_append.mp hiv with hin | hin
      · exact hgood iv hin
      · obtain rfl : iv = (s0, data.length - 1) := List.mem_singleton.mp hin
        exact ⟨hlt, fun j hj1 hj2 => (hopen s0 heq).2 j hj1 hj2⟩
    · rw [if_neg hlt] at hiv
      exact hgood iv hiv
  next heq =>
    exact hgood iv hiv

/-- Claim C3: every interval the two-state scan emits is nonempty, lies
entirely on battery, has all its adjacent gaps bounded by 5 minutes, and a gap
strictly above 5 minutes is never spanned by one interval. -/
theorem C3_segmenter_invariant : ∀ (data : List Sample) (s e : ℕ),
    (s, e) ∈ findIntervals data → segInvariant data s e := by
  intro data s e hmem
  obtain ⟨hlt, hp⟩ := findIntervals_good data (s, e) hmem
  refine ⟨hlt, ?_, ?_, ?_⟩
  · intro j hj1 hj2
    rcases Nat.eq_or_lt_of_le hj1 with heq | hlt2
    · obtain rfl : s = j := heq
      have hpair := (pairOk_iff data (s + 1)).mp (hp (s + 1) (by omega) (by omega))
      simpa using hpair.2.1
    · exact ((pairOk_iff data j).mp (hp j hlt2 hj2)).1
  · intro j hj1 hj2
    exact ((pairOk_iff data j).mp (hp j hj1 hj2)).2.2
  · rintro i hgap ⟨hi1, hi2⟩
    by_cases hz : i = 0
    · subst hz
      simp [timeGap] at hgap
      linarith
    · have hs : s < i := by omega
      have hb := ((pairOk_iff data i).mp (hp i hs hi2)).2.2
      linarith

theorem C3_segmenter_invariant_witness :
    (0, 2) ∈ findIntervals exData1 ∧ segInvariant exData1 0 2 :=
  ⟨by rw [eval_findIntervals_exData1]; exact List.mem_cons_self _ _,
   C3_segmenter_invariant exData1 0 2
     (by rw [eval_findIntervals_exData1]; exact List.mem_cons_self _ _)⟩

/-! ### Positivity of contributing rates and weights (claim C4) -/

theorem wQualifies_spec (data : List Sample) (iv : ℕ × ℕ) (h : wQualifies data iv = true) :
    2 ≤ ivDur data iv ∧ ivEndPct data iv < ivStartPct data iv ∧
      (0.5 : ℚ) ≤ ivStartPct data iv - ivEndPct data iv := by
  simpa [wQualifies, Bool.and_eq_true, decide_eq_true_iff, and_assoc] using h

theorem lastQualifies_spec (data : List Sample) (iv : ℕ × ℕ)
    (h : lastQualifies data iv = true) :
    1 ≤ ivDur data iv ∧ ivEndPct data iv < ivStartPct data iv ∧
      (0.1 : ℚ) ≤ ivStartPct data iv - ivEndPct data iv := by
  simpa [lastQualifies, Bool.and_eq_true, decide_eq_true_iff, and_assoc] using h

theorem wQualifying_facts (data : List Sample) (p : ℕ × (ℕ × ℕ)) (hp : p ∈ wQualifying data) :
    ivEndPct data p.2 < ivStartPct data p.2 ∧ 0 < ivDur data p.2 ∧ 0 < ivRate data p.2 ∧
      0 < min (ivDur data p.2) 120 * 2 ^ p.1 := by
  have hq := (List.mem_filter.mp hp).2
  obtain ⟨h2, hlt, hdrop⟩ := wQualifies_spec data p.2 hq
  have hdur : 0 < ivDur data p.2 := by linarith
  refine ⟨hlt, hdur, div_pos (by linarith) hdur, ?_⟩
  have h120 : (0 : ℚ) < min (ivDur data p.2) 120 := lt_min hdur (by norm_num)
  exact mul_pos h120 (pow_pos (by norm_num) p.1)

theorem weights_sum_pos (data : List Sample) (h : wQualifying data ≠ []) :
    0 < (weights data).sum := by
  apply List.sum_pos
  · intro x hx
    simp only [weights, List.mem_map] at hx
    obtain ⟨p, hp, rfl⟩ := hx
    exact (wQualifying_facts data p hp).2.2.2
  · simp only [weights, ne_eq, List.map_eq_nil_iff]
    exact h

theorem weightedAverage_pos (data : List Sample) (h : wQualifying data ≠ []) :
    0 < weightedAverage data := by
  have hnum : 0 < (((drainRates data).zip (weights data)).map (fun rw => rw.1 * rw.2)).sum := by
    rw [drainRates, weights, List.zip_map', List.map_map]
    apply List.sum_pos
    · intro x hx
      simp only [List.mem_map, Function.comp] at hx
      obtain ⟨p, hp, rfl⟩ := hx
      have hf := wQualifying_facts data p hp
      exact mul_pos hf.2.2.1 hf.2.2.2
    · simp only [ne_eq, List.map_eq_nil_iff]
      exact h
  rw [weightedAverage]
  exact div_pos hnum (weights_sum_pos data h)

theorem eval_wQualifying_exData1 : wQualifying exData1 = [(0, (0, 2)), (2, (7, 9))] := by
  have h1 := eval_findIntervals_exData1
  have h2 : recentIntervals exData1 = [(0, 2), (4, 5), (7, 9)] := by
    simp [recentIntervals, h1]
  have q1 : wQualifies exData1 (0, 2) = true := by
    norm_num [wQualifies, ivDur, ivStartPct, ivEndPct, tsAt, pctAt, exData1, dfltSample]
  have q2 : wQualifies exData1 (4, 5) = false := by
    norm_num [wQualifies, ivDur, ivStartPct, ivEndPct, tsAt, pctAt, exData1, dfltSample]
  have q3 : wQualifies exData1 (7, 9) = true := by
    norm_num [wQualifies, ivDur, ivStartPct, ivEndPct, tsAt, pctAt, exData1, dfltSample]
  simp only [wQualifying, h2]
  norm_num [List.enum, List.enumFrom, List.filter, q1, q2, q3]

theorem eval_last_drain_exData1 :
    (estimate_time_left_last_interval exData1).drain_rate = some 1 := by
  have h1 := eval_findIntervals_exData1
  have hL : lastIntervalList exData1 = [(0, 2), (4, 5), (7, 9)] := by
    simp [lastIntervalList, h1]
  have hG : (lastIntervalList exData1).getLast? = some (7, 9) := by rw [hL]; rfl
  have hq : lastQualifies exData1 (7, 9) = true := by
    norm_num [lastQualifies, ivDur, ivStartPct, ivEndPct, tsAt, pctAt, exData1, dfltSample]
  have hr : ivRate exData1 (7, 9) = 1 := by
    norm_num [ivRate, ivStartPct, ivEndPct, ivDur, tsAt, pctAt, exData1, dfltSample]
  simp [estimate_time_left_last_interval, hG, hq, hr]

/-- Claim C4: every contributing interval of either estimator drains strictly
(`end < start`), has positive duration, and yields a strictly positive rate;
the weight denominator is strictly positive whenever it is used; and when every
interval is filtered out the weighted path returns the no-estimate result. -/
theorem C4_no_degenerate_contribution : ∀ data : List Sample,
    (∀ p ∈ wQualifying data, ivEndPct data p.2 < ivStartPct data p.2 ∧
        0 < ivDur data p.2 ∧ 0 < ivRate data p.2) ∧
    (wQualifying data ≠ [] → 0 < (weights data).sum) ∧
    (wQualifying data = [] → get_weighted_average_drain_rate data = none ∧
      estimate_time_left_data_based data = ⟨none, 0, 0, none, []⟩) ∧
    (∀ r : ℚ, (estimate_time_left_last_interval data).drain_rate = some r → 0 < r) := by
  intro data
  refine ⟨?_, weights_sum_pos data, ?_, ?_⟩
  · intro p hp
    have hf := wQualifying_facts data p hp
    exact ⟨hf.1, hf.2.1, hf.2.2.1⟩
  · intro hq
    have hdr : drainRates data = [] := by rw [drainRates, hq]; rfl
    have hw : get_weighted_average_drain_rate data = none := by
      unfold get_weighted_average_drain_rate
      by_cases hfi : findIntervals data = []
      · rw [if_pos hfi]
      · rw [if_neg hfi, if_pos hdr]
    exact ⟨hw, by simp [estimate_time_left_data_based, hw]⟩
  · intro r hr
    unfold estimate_time_left_last_interval at hr
    split at hr
    · simp at hr
    next iv heq =>
      by_cases hq : lastQualifies data iv = true
      · rw [if_pos hq] at hr
        simp only at hr
        obtain rfl : ivRate data iv = r := by simpa using hr
        have hspec := lastQualifies_spec data iv hq
        exact div_pos (by linarith [hspec.2.1]) (by linarith [hspec.1])
      · rw [if_neg hq] at hr
        simp at hr

theorem C4_no_degenerate_contribution_witness :
    (0 : ℚ) < (weights exData1).sum ∧ (0 : ℚ) < 1 :=
  ⟨(C4_no_degenerate_contribution exData1).2.1
      (by rw [eval_wQualifying_exData1]; exact List.cons_ne_nil _ _),
   (C4_no_degenerate_contribution exData1).2.2.2 1 eval_last_drain_exData1⟩

/-! ### The confidence blend (claim C6) -/

/-- Claim C6: whenever the weighted estimator returns a result, at least one
interval qualified, the weighted mean is strictly positive (so the source's
guard on its sign never fires), and the returned confidence equals the blend
`0.4·min(k/5,1) + 0.3·min(total/60,1) + 0.3·consistency` with the population
variance of the unweighted rates around the weighted mean and the
single-interval consistency fixed at 0.5. -/
theorem C6_confidence_formula : ∀ (data : List Sample) (res : WResult),
    get_weighted_average_drain_rate data = some res →
    1 ≤ (drainRates data).length ∧ 0 < res.average_drain_rate ∧
      res.confidence = claimConfidence data := by
  intro data res h
  unfold get_weighted_average_drain_rate at h
  by_cases hfi : findIntervals data = []
  · rw [if_pos hfi] at h
    exact absurd h (by simp)
  rw [if_neg hfi] at h
  by_cases hdr : drainRates data = []
  · rw [if_pos hdr] at h
    exact absurd h (by simp)
  rw [if_neg hdr] at h
  have hq : wQualifying data ≠ [] := by
    intro hq
    exact hdr (by rw [drainRates, hq]; rfl)
  have hpos := weightedAverage_pos data hq
  have hres : res = ⟨weightedAverage data, confidence data, (drainRates data).length,
      intervalDetails data⟩ := (Option.some.inj h).symm
  subst hres
  refine ⟨List.length_pos.mpr hdr, hpos, ?_⟩
  show confidence data = claimConfidence data
  simp only [confidence, claimConfidence, normalizedVariance]
  by_cases hone : (drainRates data).length = 1
  · rw [if_pos hone, if_neg (by omega : ¬1 < (drainRates data).length)]
    ring
  · have h1lt : 1 < (drainRates data).length := by
      have := List.length_pos.mpr hdr
      omega
    rw [if_neg hone, if_pos h1lt, if_pos hpos]
    ring

theorem C6_confidence_formula_witness :
    1 ≤ (drainRates exDataC6).length ∧
    (0 : ℚ) < (WResult.mk (1 / 2) (27 / 100) 1
      [⟨0, 8, 8, 3, 100, 96, 1 / 2, 8⟩]).average_drain_rate ∧
    (WResult.mk (1 / 2) (27 / 100) 1
      [⟨0, 8, 8, 3, 100, 96, 1 / 2, 8⟩]).confidence = claimConfidence exDataC6 :=
  ⟨(C6_confidence_formula exDataC6 _ eval_weighted_exDataC6).1,
   (C6_confidence_formula exDataC6 _ eval_weighted_exDataC6).2.1,
   (C6_confidence_formula exDataC6 _ eval_weighted_exDataC6).2.2⟩

/-! ### Claim C1: order of filtering and truncation in the weighted estimator -/

theorem C1_filter_order_counterexample :
    (get_weighted_average_drain_rate exData1).map (fun r => r.average_drain_rate) =
      some (9 / 10) ∧
    claimWeightedRate exData1 = some (5 / 6) ∧ (9 / 10 : ℚ) ≠ 5 / 6 := by
  refine ⟨?_, eval_claimWeightedRate_exData1, by norm_num⟩
  rw [eval_weighted_exData1]
  rfl

/-- Claim C1 as amended: the source truncates to the 10 most recent intervals
first and filters afterwards, and the recency exponent is the chronological
index within the truncated pre-filter list, so the returned rate is the
weighted mean over `wQualifying` with those indices. -/
theorem C1_weighted_formula : ∀ data : List Sample,
    (get_weighted_average_drain_rate data).map (fun r => r.average_drain_rate) =
      amendedWeightedRate data := by
  intro data
  unfold get_weighted_average_drain_rate amendedWeightedRate
  by_cases hfi : findIntervals data = []
  · have hq : wQualifying data = [] := by
      simp [wQualifying, recentIntervals, hfi]
    rw [if_pos hfi, if_pos hq]
    rfl
  rw [if_neg hfi]
  by_cases hdr : drainRates data = []
  · have hq : wQualifying data = [] := by
      simpa [drainRates, List.map_eq_nil_iff] using hdr
    rw [if_pos hdr, if_pos hq]
    rfl
  · have hq : wQualifying data ≠ [] := fun hq => hdr (by rw [drainRates, hq]; rfl)
    rw [if_neg hdr, if_neg hq]
    simp only [Option.map_some']
    congr 1
    rw [weightedAverage, drainRates, weights, List.zip_map', List.map_map]
    rfl

/-! ### Claim C2: which interval the last-interval estimator consults -/

theorem C2_last_qualifying_counterexample :
    (estimate_time_left_last_interval exData2).drain_rate = none ∧
    claimLastIntervalRate exData2 = some 1 := by
  refine ⟨?_, eval_claimLastIntervalRate_exData2⟩
  rw [eval_last_exData2]

/-- Claim C2 as amended: the estimator consults only the chronologically last
interval of the scan result (it never searches earlier qualifying intervals),
and the synthetic fallback replaces the list only when the scan produced no
interval at all. -/
theorem C2_last_interval_selection : ∀ data : List Sample,
    (estimate_time_left_last_interval data).drain_rate = amendedLastDrainRate data := by
  intro data
  unfold estimate_time_left_last_interval amendedLastDrainRate
  cases hG : (lastIntervalList data).getLast? with
  | none => rfl
  | some iv =>
    by_cases hq : lastQualifies data iv = true
    · simp only [if_pos hq]
    · simp only [if_neg hq]

/-! ### Claim C5: sparse input yields the no-estimate result -/

/-- Claim C5: a series with at most one sample makes both estimators return
the plain no-estimate result (no estimate, confidence 0) rather than failing. -/
theorem C5_insufficient_data : ∀ data : List Sample, data.length ≤ 1 →
    estimate_time_left_data_based data = ⟨none, 0, 0, none, []⟩ ∧
    estimate_time_left_last_interval data = ⟨none, 0, none, []⟩ := by
  intro data h
  have hn : data.length - 1 = 0 := by omega
  have hiv : findIntervals data = [] := by
    unfold findIntervals
    simp [hn]
  have hw : get_weighted_average_drain_rate data = none := by
    unfold get_weighted_average_drain_rate
    rw [if_pos hiv]
  have hbl : (batteryIndices data).length ≤ 1 := by
    unfold batteryIndices
    calc (List.filter (fun i => plugAt data i == false) (List.range data.length)).length
        ≤ (List.range data.length).length := List.length_filter_le _ _
      _ = data.length := by simp
      _ ≤ 1 := h
  have hfb : fallbackInterval data = none := by
    simp only [fallbackInterval]
    rw [if_neg (by omega)]
  have hL : lastIntervalList data = [] := by
    simp [lastIntervalList, hiv, hfb]
  constructor
  · simp [estimate_time_left_data_based, hw]
  · simp [estimate_time_left_last_interval, hL]

theorem C5_insufficient_data_witness :
    estimate_time_left_data_based exData5 = ⟨none, 0, 0, none, []⟩ ∧
    estimate_time_left_last_interval exData5 = ⟨none, 0, none, []⟩ :=
  C5_insufficient_data exData5 (by simp [exData5])

/-! ### Claim C7: how fallback results are flagged -/

theorem C7_no_degenerate_flag_counterexample :
    estimate_time_left_last_interval exDataC7a = estimate_time_left_last_interval exDataC7b ∧
    findIntervals exDataC7a ≠ [] ∧ findIntervals exDataC7b = [] := by
  refine ⟨?_, ?_, eval_findIntervals_exDataC7b⟩
  · rw [eval_last_exDataC7a, eval_last_exDataC7b]
  · rw [eval_findIntervals_exDataC7a]
    exact List.cons_ne_nil _ _

/-- Claim C7 as amended: every diagnostic entry the last-interval estimator
emits — fallback or not — carries the same marks, `is_latest = true` and
`weight = 1`; no flag specific to the synthetic interval exists. -/
theorem C7_is_latest_flag : ∀ (data : List Sample) (d : LastIntervalDetail),
    d ∈ (estimate_time_left_last_interval data).interval_details →
    d.is_latest = true ∧ d.weight = 1 := by
  intro data d hd
  unfold estimate_time_left_last_interval at hd
  split at hd
  · simp at hd
  next iv heq =>
    by_cases hq : lastQualifies data iv = true
    · rw [if_pos hq] at hd
      simp only at hd
      obtain rfl := List.mem_singleton.mp hd
      exact ⟨rfl, rfl⟩
    · rw [if_neg hq] at hd
      simp at hd

theorem C7_is_latest_flag_witness :
    (⟨0, 6, 6, 3, 100, 98, 1 / 3, 1, true⟩ : LastIntervalDetail).is_latest = true ∧
    (⟨0, 6, 6, 3, 100, 98, 1 / 3, 1, true⟩ : LastIntervalDetail).weight = 1 :=
  C7_is_latest_flag exDataC7b ⟨0, 6, 6, 3, 100, 98, 1 / 3, 1, true⟩
    (by simp [eval_last_exDataC7b])

/-! ### Claim C8: what the weighted diagnostics actually list -/

/-- Claim C8 evaluated at the failing input: the second diagnostic entry
reports the endpoints of the skipped flat interval (96 → 96 over minutes
12-13) together with the duration, rate and weight computed for the qualifying
third interval, so `drain_rate = (start - end) / duration` fails for it, and
the interval it came from never contributed. -/
theorem C8_detail_mismatch :
    (get_weighted_average_drain_rate exData1).map (fun r => r.interval_details) =
      some [⟨0, 8, 8, 3, 100, 96, 1 / 2, 8⟩, ⟨12, 13, 8, 2, 96, 96, 1, 32⟩] ∧
    ¬((1 : ℚ) = (96 - 96) / 8) ∧
    (4, 5) ∈ recentIntervals exData1 ∧ wQualifies exData1 (4, 5) = false := by
  refine ⟨?_, by norm_num, ?_, ?_⟩
  · rw [eval_weighted_exData1]
    rfl
  · simp [recentIntervals, eval_findIntervals_exData1]
  · norm_num [wQualifies, ivDur, ivStartPct, ivEndPct, tsAt, pctAt, exData1, dfltSample]

/-! ### Claim C9: the estimators mutate the caller's frame -/

theorem C9_mutates_raw_frame :
    (get_weighted_average_drain_rate_frame exFrameRaw).2 ≠ exFrameRaw := by
  simp [get_weighted_average_drain_rate_frame, ensureDatetime, exFrameRaw,
    TsCol.isDatetime, toDatetime, TsCol.vals]

/-- Claim C9 as amended: an estimation call never touches the percentage or
plugged columns and preserves every timestamp instant, and a frame whose
timestamp column is already datetime-typed is returned unchanged; but an
untyped timestamp column is replaced in place by its parsed form, so only in
that case does the caller's frame change. -/
theorem C9_frame_effect : ∀ f : Frame,
    ((get_weighted_average_drain_rate_frame f).2.pct = f.pct ∧
     (get_weighted_average_drain_rate_frame f).2.plug = f.plug ∧
     (get_weighted_average_drain_rate_frame f).2.ts.vals = f.ts.vals) ∧
    ((estimate_time_left_last_interval_frame f).2 = ensureDatetime f ∧
     (get_battery_estimations_frame f).2 = ensureDatetime f) ∧
    ((get_battery_estimations_frame f).1 = get_battery_estimations f.samples) ∧
    (f.ts.isDatetime = true →
      (get_weighted_average_drain_rate_frame f).2 = f ∧
      (estimate_time_left_last_interval_frame f).2 = f ∧
      (get_battery_estimations_frame f).2 = f) := by
  intro f
  obtain ⟨ts, pct, plug⟩ := f
  cases ts <;>
    simp [get_weighted_average_drain_rate_frame, estimate_time_left_last_interval_frame,
      get_battery_estimations_frame, ensureDatetime, toDatetime, TsCol.isDatetime,
      TsCol.vals, Frame.samples]

theorem C9_frame_effect_witness :
    (get_weighted_average_drain_rate_frame exFrameDt).2 = exFrameDt ∧
    (estimate_time_left_last_interval_frame exFrameDt).2 = exFrameDt ∧
    (get_battery_estimations_frame exFrameDt).2 = exFrameDt :=
  (C9_frame_effect exFrameDt).2.2.2 rfl
